import Mathlib

/-!
Verification of the sentiment-analyzer gateway (src/backend/main.py).

Python strings are embedded as `List Char`; the handful of string methods
the backend uses (`strip`, `lower`, `capitalize`, the substring operator
`in`) are modelled over that type, restricted to ASCII (the backend's
keyword lists, labels and error messages are all ASCII).

The `/analyze/` endpoint `analyze_sentiment` is embedded as a pure function
of the request (text, optional model form field) and an environment
recording what the outside world (the Ollama server) answers: the result of
the liveness probe `check_ollama_service`, the model list returned by
`get_available_models`, and the outcome of the `requests.post` to
`/api/generate`.  Its value is `Except HTTPError AnalyzeResult`, matching
FastAPI's raise-HTTPException-or-return-JSON behaviour.  The `timestamp`
field of the JSON result (wall-clock time) is not modelled.
-/

/-- Python strings, embedded as lists of characters. -/
abbrev PyStr := List Char

/-- ASCII whitespace recognised by Python's `str.strip()`:
space, tab, newline, carriage return, vertical tab, form feed. -/
def pyIsSpace (c : Char) : Bool :=
  c = ' ' || c = '\t' || c = '\n' || c = '\r' || c = '\x0b' || c = '\x0c'

/-- Python `s.strip()`: remove leading and trailing whitespace. -/
def pyStrip (s : PyStr) : PyStr :=
  ((s.dropWhile pyIsSpace).reverse.dropWhile pyIsSpace).reverse

/-- Python `s.lower()` (ASCII). -/
def pyLower (s : PyStr) : PyStr := s.map Char.toLower

/-- Python `s.capitalize()` (ASCII): first character upper-cased, the
rest lower-cased. -/
def pyCapitalize (s : PyStr) : PyStr :=
  match s with
  | [] => []
  | c :: cs => Char.toUpper c :: cs.map Char.toLower

/-- Python substring test `needle in hay`. -/
def pyContains : PyStr → PyStr → Bool
  | needle, [] => needle.isEmpty
  | needle, c :: t => needle.isPrefixOf (c :: t) || pyContains needle t

/-- Python `any(word in text for word in words)`. -/
def containsAny (text : PyStr) : List PyStr → Bool
  | [] => false
  | w :: ws => pyContains w text || containsAny text ws

/-- Keyword list of the first `if` of `clean_response` (main.py line 27). -/
def positiveWords : List PyStr :=
  ["positive".toList, "happy".toList, "good".toList, "great".toList,
   "excellent".toList, "wonderful".toList]

/-- Keyword list of the first `elif` of `clean_response` (main.py line 29). -/
def negativeWords : List PyStr :=
  ["negative".toList, "sad".toList, "bad".toList, "terrible".toList,
   "awful".toList, "horrible".toList]

/-- Keyword list of the second `elif` of `clean_response` (main.py line 31). -/
def neutralWords : List PyStr :=
  ["neutral".toList, "mixed".toList, "okay".toList, "average".toList]

/-- The label normalizer `clean_response` (main.py lines 22-43): strip and
lower-case the raw reply (the Python code reassigns `text`; here the
stripped lower-cased string is written out at each use site), test the
three keyword lists in order, then the three literal substrings in order,
and finally fall back to the capitalized text, or "Neutral" when the
stripped text is empty. -/
def clean_response (text : PyStr) : PyStr :=
  if containsAny (pyLower (pyStrip text)) positiveWords then "Positive".toList
  else if containsAny (pyLower (pyStrip text)) negativeWords then "Negative".toList
  else if containsAny (pyLower (pyStrip text)) neutralWords then "Neutral".toList
  else if pyContains "positive".toList (pyLower (pyStrip text)) then "Positive".toList
  else if pyContains "negative".toList (pyLower (pyStrip text)) then "Negative".toList
  else if pyContains "neutral".toList (pyLower (pyStrip text)) then "Neutral".toList
  else if pyLower (pyStrip text) ≠ [] then pyCapitalize (pyLower (pyStrip text))
  else "Neutral".toList

/-- DEFAULT_MODEL (main.py line 20). -/
def DEFAULT_MODEL : PyStr := "mistral:7b-instruct".toList

/-- The canonical labels (main.py line 170). -/
def canonicalLabels : List PyStr :=
  ["Positive".toList, "Negative".toList, "Neutral".toList]

/-- An HTTPException: status code and detail string. -/
structure HTTPError where
  status : Nat
  detail : PyStr
deriving DecidableEq

/-- The JSON object returned by a successful `/analyze/` call
(main.py lines 168-177); the wall-clock `timestamp` field is not modelled. -/
structure AnalyzeResult where
  sentiment : PyStr
  confidence : PyStr
  model_used : PyStr
  input_text : PyStr
  input_length : Nat
  raw_response : PyStr
  status : PyStr
deriving DecidableEq

deriving instance DecidableEq for Except

/-- Outcome of the `requests.post` to Ollama's `/api/generate`
(main.py lines 136-148): a timeout, a connection-level failure
(`requests.exceptions.RequestException`), a completed HTTP exchange with a
status code and the `response` field extracted from the JSON body, or any
other exception (with its message). -/
inductive UpstreamOutcome where
  | timeout
  | connError (msg : PyStr)
  | ok (status : Nat) (responseText : PyStr)
  | otherExc (msg : PyStr)
deriving DecidableEq

/-- What the outside world answers during one `/analyze/` request:
the liveness probe result, the model list, and the generate-call outcome. -/
structure Env where
  ollamaUp : Bool
  models : List PyStr
  outcome : UpstreamOutcome
deriving DecidableEq

/-- The requested model (main.py line 120): the form field when present and
nonempty (Python truthiness of `model`), otherwise DEFAULT_MODEL. -/
def requestedModel : Option PyStr → PyStr
  | none => DEFAULT_MODEL
  | some m => if m = [] then DEFAULT_MODEL else m

/-- Model selection (main.py lines 119-125): when the model list is
nonempty and does not contain the requested model, the first listed model
is substituted. -/
def chooseModel (model : Option PyStr) (models : List PyStr) : PyStr :=
  if models ≠ [] ∧ models.contains (requestedModel model) = false
  then models.headD (requestedModel model)
  else requestedModel model

/-- The success JSON (main.py lines 168-177), built from the stripped input
`t`, the chosen model and the stripped upstream reply `raw`. -/
def buildResult (t model_to_use raw : PyStr) : AnalyzeResult :=
  { sentiment := clean_response raw
    confidence :=
      if canonicalLabels.contains (clean_response raw)
      then "high".toList else "medium".toList
    model_used := model_to_use
    input_text := t
    input_length := t.length
    raw_response := raw
    status := "success".toList }

/-- An HTTPException raised inside the `try` block (the non-200 and
empty-reply cases, main.py lines 150-163) is itself caught by the final
`except Exception as e` handler (Starlette's HTTPException subclasses
Exception and its string form is the status code, a colon and the detail),
so it is re-raised as a 500 whose detail wraps the original status and
detail (main.py lines 189-193). -/
def wrapAsUnexpected (e : HTTPError) : HTTPError :=
  ⟨500, "Unexpected error during sentiment analysis: ".toList
          ++ (toString e.status).toList ++ ": ".toList ++ e.detail⟩

/-- The `try`/`except` block of `analyze_sentiment` (main.py lines 134-193),
given the stripped input `t`, the chosen model and the upstream outcome. -/
def callOllama (t model_to_use : PyStr) (outcome : UpstreamOutcome) :
    Except HTTPError AnalyzeResult :=
  match outcome with
  | .timeout =>
      .error ⟨504, "Request timeout. The model is taking too long to respond.".toList⟩
  | .connError msg =>
      .error ⟨503, "Failed to connect to Ollama service: ".toList ++ msg⟩
  | .otherExc msg =>
      .error ⟨500, "Unexpected error during sentiment analysis: ".toList ++ msg⟩
  | .ok status responseText =>
      if status ≠ 200 then
        .error (wrapAsUnexpected
          ⟨500, "Ollama API error: ".toList ++ (toString status).toList⟩)
      else if pyStrip responseText = [] then
        .error (wrapAsUnexpected ⟨500, "Empty response from model".toList⟩)
      else
        .ok (buildResult t model_to_use (pyStrip responseText))

/-- The `/analyze/` endpoint `analyze_sentiment` (main.py lines 89-193):
validation of the text field (the Python code reassigns `text` to its
stripped form; here `pyStrip text` is written out at each use site),
liveness check, model selection, then the call to Ollama. -/
def analyze_sentiment (text : PyStr) (model : Option PyStr) (env : Env) :
    Except HTTPError AnalyzeResult :=
  if text = [] ∨ pyStrip text = [] then
    .error ⟨400, "Text input is required".toList⟩
  else if (pyStrip text).length < 3 then
    .error ⟨400, "Text too short (minimum 3 characters)".toList⟩
  else if (pyStrip text).length > 5000 then
    .error ⟨400, "Text too long (maximum 5,000 characters)".toList⟩
  else if env.ollamaUp = false then
    .error ⟨503, "Ollama service is not available. Please ensure Ollama is running.".toList⟩
  else
    callOllama (pyStrip text) (chooseModel model env.models) env.outcome

/-- Status code of the result: the HTTPException's code on the error path,
none on the success path. -/
def errStatus : Except HTTPError AnalyzeResult → Option Nat
  | .error e => some e.status
  | .ok _ => none

/-- The `model_used` field on the success path. -/
def okModelUsed : Except HTTPError AnalyzeResult → Option PyStr
  | .error _ => none
  | .ok r => some r.model_used

/-! ### Helper lemmas -/

/-- Splitting a failed `containsAny` over a cons. -/
lemma containsAny_cons_false {t w : PyStr} {ws : List PyStr}
    (h : containsAny t (w :: ws) = false) :
    pyContains w t = false ∧ containsAny t ws = false := by
  simpa [containsAny] using h

/-- A list is a prefix of itself. -/
lemma isPrefixOf_self (l : PyStr) : l.isPrefixOf l = true := by
  induction l with
  | nil => rfl
  | cons c t ih => simp [List.isPrefixOf, ih]

/-- A string contains each of its suffixes. -/
lemma pyContains_suffix (needle pre : PyStr) :
    pyContains needle (pre ++ needle) = true := by
  induction pre with
  | nil =>
    cases needle with
    | nil => rfl
    | cons c t => simp [pyContains, isPrefixOf_self (c :: t)]
  | cons c pre ih => simpa [pyContains] using Or.inr ih

/-- Stripping a fully-whitespace string gives the empty string. -/
lemma pyStrip_of_all_space {s : PyStr} (h : s.all pyIsSpace = true) :
    pyStrip s = [] := by
  have h1 : List.dropWhile pyIsSpace s = [] :=
    List.dropWhile_eq_nil_iff.mpr (fun x hx => List.all_eq_true.mp h x hx)
  simp [pyStrip, h1]

/-- Stripping never lengthens a string. -/
lemma pyStrip_length_le (s : PyStr) : (pyStrip s).length ≤ s.length := by
  calc (pyStrip s).length
      = ((s.dropWhile pyIsSpace).reverse.dropWhile pyIsSpace).length := by
        simp [pyStrip]
    _ ≤ (s.dropWhile pyIsSpace).reverse.length :=
        (List.dropWhile_sublist _).length_le
    _ = (s.dropWhile pyIsSpace).length := by simp
    _ ≤ s.length := (List.dropWhile_sublist _).length_le

/-- Stripping the empty string. -/
lemma pyStrip_nil : pyStrip [] = [] := rfl

/-- The normalizer on input whose stripped form is empty. -/
lemma clean_response_of_strip_nil {s : PyStr} (h : pyStrip s = []) :
    clean_response s = "Neutral".toList := by
  unfold clean_response
  rw [h]
  decide

/-- Unfolding `analyze_sentiment` once validation and liveness pass. -/
lemma analyze_valid {text : PyStr} {model : Option PyStr} {env : Env}
    (h3 : 3 ≤ (pyStrip text).length) (h5 : (pyStrip text).length ≤ 5000)
    (hup : env.ollamaUp = true) :
    analyze_sentiment text model env
      = callOllama (pyStrip text) (chooseModel model env.models) env.outcome := by
  have hne : ¬(text = [] ∨ pyStrip text = []) := by
    rintro (rfl | hnil)
    · rw [pyStrip_nil] at h3; simp at h3
    · rw [hnil] at h3; simp at h3
  unfold analyze_sentiment
  rw [if_neg hne, if_neg (by omega), if_neg (by omega), if_neg (by simp [hup])]

/-- A stripped input shorter than three characters is rejected with a 400. -/
lemma analyze_short {text : PyStr} {model : Option PyStr} {env : Env}
    (h : (pyStrip text).length < 3) :
    errStatus (analyze_sentiment text model env) = some 400 := by
  unfold analyze_sentiment
  by_cases hc : text = [] ∨ pyStrip text = []
  · rw [if_pos hc]; rfl
  · rw [if_neg hc, if_pos h]; rfl

/-- A stripped input longer than 5000 characters is rejected with a 400. -/
lemma analyze_long {text : PyStr} {model : Option PyStr} {env : Env}
    (h : (pyStrip text).length > 5000) :
    errStatus (analyze_sentiment text model env) = some 400 := by
  have hnil : pyStrip text ≠ [] := by
    intro hn; rw [hn] at h; simp at h
  have hne : ¬(text = [] ∨ pyStrip text = []) := by
    rintro (rfl | hn)
    · exact hnil (by rw [pyStrip_nil])
    · exact hnil hn
  unfold analyze_sentiment
  rw [if_neg hne, if_neg (by omega), if_pos h]; rfl

/-- With valid input and the liveness probe failing, the endpoint answers
the 503 service-unavailable error. -/
lemma analyze_down {text : PyStr} {model : Option PyStr} {env : Env}
    (hup : env.ollamaUp = false)
    (h3 : 3 ≤ (pyStrip text).length) (h5 : (pyStrip text).length ≤ 5000) :
    analyze_sentiment text model env
      = .error ⟨503, "Ollama service is not available. Please ensure Ollama is running.".toList⟩ := by
  have hne : ¬(text = [] ∨ pyStrip text = []) := by
    rintro (rfl | hnil)
    · rw [pyStrip_nil] at h3; simp at h3
    · rw [hnil] at h3; simp at h3
  unfold analyze_sentiment
  rw [if_neg hne, if_neg (by omega), if_neg (by omega), if_pos hup]

/-- With valid input the endpoint never answers a 400. -/
lemma analyze_not400 {text : PyStr} {model : Option PyStr} {env : Env}
    (h3 : 3 ≤ (pyStrip text).length) (h5 : (pyStrip text).length ≤ 5000) :
    errStatus (analyze_sentiment text model env) ≠ some 400 := by
  by_cases hup : env.ollamaUp = true
  · rw [analyze_valid h3 h5 hup]
    cases env.outcome with
    | timeout => simp [callOllama, errStatus]
    | connError m => simp [callOllama, errStatus]
    | otherExc m => simp [callOllama, errStatus]
    | ok st resp =>
      by_cases hst : st ≠ 200
      · simp [callOllama, hst, errStatus, wrapAsUnexpected]
      · by_cases hresp : pyStrip resp = []
        · simp [callOllama, hst, hresp, errStatus, wrapAsUnexpected]
        · simp [callOllama, hst, hresp, errStatus]
  · rw [analyze_down (Bool.not_eq_true _ ▸ hup) h3 h5]
    simp [errStatus]

/-- A successful answer is the JSON built from the stripped input, the
chosen model and a nonempty stripped upstream reply. -/
lemma analyze_ok_shape {text : PyStr} {model : Option PyStr} {env : Env}
    {r : AnalyzeResult} (h : analyze_sentiment text model env = .ok r) :
    ∃ raw, raw ≠ [] ∧
      r = buildResult (pyStrip text) (chooseModel model env.models) raw := by
  unfold analyze_sentiment at h
  by_cases hc : text = [] ∨ pyStrip text = []
  · rw [if_pos hc] at h; exact absurd h (by simp)
  · rw [if_neg hc] at h
    by_cases h3 : (pyStrip text).length < 3
    · rw [if_pos h3] at h; exact absurd h (by simp)
    · rw [if_neg h3] at h
      by_cases h5 : (pyStrip text).length > 5000
      · rw [if_pos h5] at h; exact absurd h (by simp)
      · rw [if_neg h5] at h
        by_cases hup : env.ollamaUp = false
        · rw [if_pos hup] at h; exact absurd h (by simp)
        · rw [if_neg hup] at h
          cases houtcome : env.outcome with
          | timeout => rw [houtcome] at h; exact absurd h (by simp [callOllama])
          | connError m => rw [houtcome] at h; exact absurd h (by simp [callOllama])
          | otherExc m => rw [houtcome] at h; exact absurd h (by simp [callOllama])
          | ok st resp =>
            rw [houtcome] at h
            by_cases hst : st ≠ 200
            · rw [callOllama, if_pos hst] at h; exact absurd h (by simp)
            · rw [callOllama, if_neg hst] at h
              by_cases hresp : pyStrip resp = []
              · rw [if_pos hresp] at h; exact absurd h (by simp)
              · rw [if_neg hresp] at h
                exact ⟨pyStrip resp, hresp, (Except.ok.inj h).symm⟩

/-- The keyword phase already tests the three label words, so a failed
keyword phase forces a failed literal-substring test for "positive". -/
lemma phase2_positive_dead {t : PyStr}
    (h : containsAny t positiveWords = false) :
    pyContains "positive".toList t = false :=
  (containsAny_cons_false (by simpa [positiveWords] using h)).1

/-- A failed keyword phase forces a failed literal-substring test for
"negative". -/
lemma phase2_negative_dead {t : PyStr}
    (h : containsAny t negativeWords = false) :
    pyContains "negative".toList t = false :=
  (containsAny_cons_false (by simpa [negativeWords] using h)).1

/-- A failed keyword phase forces a failed literal-substring test for
"neutral". -/
lemma phase2_neutral_dead {t : PyStr}
    (h : containsAny t neutralWords = false) :
    pyContains "neutral".toList t = false :=
  (containsAny_cons_false (by simpa [neutralWords] using h)).1

/-- `clean_response` with its second phase (the literal-substring checks of
main.py lines 35-40) removed. -/
def clean_response_simplified (text : PyStr) : PyStr :=
  if containsAny (pyLower (pyStrip text)) positiveWords then "Positive".toList
  else if containsAny (pyLower (pyStrip text)) negativeWords then "Negative".toList
  else if containsAny (pyLower (pyStrip text)) neutralWords then "Neutral".toList
  else if pyLower (pyStrip text) ≠ [] then pyCapitalize (pyLower (pyStrip text))
  else "Neutral".toList

/-- C8: for every input string, the label-normalization function returns
the same result as the version with the second-phase literal-substring
checks for "positive"/"negative"/"neutral" removed: those three tokens are
already members of the first-phase keyword lists, so the second phase is
unreachable. -/
theorem C8_clean_response_phase2_unreachable (text : PyStr) :
    clean_response text = clean_response_simplified text := by
  unfold clean_response clean_response_simplified
  by_cases hp : containsAny (pyLower (pyStrip text)) positiveWords = true
  · rw [if_pos hp, if_pos hp]
  · have hp' : containsAny (pyLower (pyStrip text)) positiveWords = false :=
      Bool.not_eq_true _ ▸ hp
    rw [if_neg hp, if_neg hp]
    by_cases hn : containsAny (pyLower (pyStrip text)) negativeWords = true
    · rw [if_pos hn, if_pos hn]
    · have hn' : containsAny (pyLower (pyStrip text)) negativeWords = false :=
        Bool.not_eq_true _ ▸ hn
      rw [if_neg hn, if_neg hn]
      by_cases hu : containsAny (pyLower (pyStrip text)) neutralWords = true
      · rw [if_pos hu, if_pos hu]
      · have hu' : containsAny (pyLower (pyStrip text)) neutralWords = false :=
          Bool.not_eq_true _ ▸ hu
        rw [if_neg hu, if_neg hu]
        rw [if_neg (by rw [phase2_positive_dead hp']; simp),
            if_neg (by rw [phase2_negative_dead hn']; simp),
            if_neg (by rw [phase2_neutral_dead hu']; simp)]

/-- The first-phase Positive keyword set exactly as the specification words
it: "happy/good/great/excellent/wonderful", without the label word
"positive" itself. -/
def claimedPositiveWords : List PyStr :=
  ["happy".toList, "good".toList, "great".toList,
   "excellent".toList, "wonderful".toList]

/-- The first-phase Negative keyword set exactly as the specification words
it. -/
def claimedNegativeWords : List PyStr :=
  ["sad".toList, "bad".toList, "terrible".toList,
   "awful".toList, "horrible".toList]

/-- The first-phase Neutral keyword set exactly as the specification words
it. -/
def claimedNeutralWords : List PyStr :=
  ["mixed".toList, "okay".toList, "average".toList]

/-- Label normalization exactly as the specification words it: lower-case
and trim; first phase over the curated keyword sets WITHOUT the three label
words; second phase over the literal substrings "positive"/"negative"/
"neutral" in that priority order; and finally the capitalized raw reply
verbatim. -/
def clean_response_claimed (text : PyStr) : PyStr :=
  if containsAny (pyLower (pyStrip text)) claimedPositiveWords then "Positive".toList
  else if containsAny (pyLower (pyStrip text)) claimedNegativeWords then "Negative".toList
  else if containsAny (pyLower (pyStrip text)) claimedNeutralWords then "Neutral".toList
  else if pyContains "positive".toList (pyLower (pyStrip text)) then "Positive".toList
  else if pyContains "negative".toList (pyLower (pyStrip text)) then "Negative".toList
  else if pyContains "neutral".toList (pyLower (pyStrip text)) then "Neutral".toList
  else pyCapitalize text

/-- C1, counterexample: on the raw reply "positive sad" the code answers
"Positive" (the first keyword list also holds the word "positive"), while
the normalizer described by the claim answers "Negative" (its Positive set
lacks "positive", and "sad" matches its Negative set first). -/
theorem C1_counterexample :
    clean_response ("positive sad".toList) = "Positive".toList ∧
    clean_response_claimed ("positive sad".toList) = "Negative".toList ∧
    clean_response ("positive sad".toList)
      ≠ clean_response_claimed ("positive sad".toList) := by
  refine ⟨by decide, by decide, ?_⟩
  decide

/-- C1, amended: the normalizer lower-cases and strips the reply, then
tests the keyword lists in priority order Positive, Negative, Neutral,
where each list additionally holds its own label word ("positive",
"negative", "neutral"); the second-phase literal-substring checks can
therefore never fire (see the phase-two lemmas), and the final fallback
capitalizes the stripped lower-cased reply, answering "Neutral" when it is
empty. -/
theorem C1_amended_normalizer (r : PyStr) :
    (containsAny (pyLower (pyStrip r)) positiveWords = true →
        clean_response r = "Positive".toList) ∧
    (containsAny (pyLower (pyStrip r)) positiveWords = false →
     containsAny (pyLower (pyStrip r)) negativeWords = true →
        clean_response r = "Negative".toList) ∧
    (containsAny (pyLower (pyStrip r)) positiveWords = false →
     containsAny (pyLower (pyStrip r)) negativeWords = false →
     containsAny (pyLower (pyStrip r)) neutralWords = true →
        clean_response r = "Neutral".toList) ∧
    (containsAny (pyLower (pyStrip r)) positiveWords = false →
     containsAny (pyLower (pyStrip r)) negativeWords = false →
     containsAny (pyLower (pyStrip r)) neutralWords = false →
     pyLower (pyStrip r) ≠ [] →
        clean_response r = pyCapitalize (pyLower (pyStrip r))) ∧
    (containsAny (pyLower (pyStrip r)) positiveWords = false →
     containsAny (pyLower (pyStrip r)) negativeWords = false →
     containsAny (pyLower (pyStrip r)) neutralWords = false →
     pyLower (pyStrip r) = [] →
        clean_response r = "Neutral".toList) := by
  refine ⟨?_, ?_, ?_, ?_, ?_⟩
  · intro hp; unfold clean_response; rw [if_pos (by rw [hp])]
  · intro hp hn
    unfold clean_response
    rw [if_neg (by rw [hp]; simp), if_pos (by rw [hn])]
  · intro hp hn hu
    unfold clean_response
    rw [if_neg (by rw [hp]; simp), if_neg (by rw [hn]; simp),
        if_pos (by rw [hu])]
  · intro hp hn hu hne
    unfold clean_response
    rw [if_neg (by rw [hp]; simp), if_neg (by rw [hn]; simp),
        if_neg (by rw [hu]; simp),
        if_neg (by rw [phase2_positive_dead hp]; simp),
        if_neg (by rw [phase2_negative_dead hn]; simp),
        if_neg (by rw [phase2_neutral_dead hu]; simp),
        if_pos hne]
  · intro hp hn hu hnil
    unfold clean_response
    rw [if_neg (by rw [hp]; simp), if_neg (by rw [hn]; simp),
        if_neg (by rw [hu]; simp),
        if_neg (by rw [phase2_positive_dead hp]; simp),
        if_neg (by rw [phase2_negative_dead hn]; simp),
        if_neg (by rw [phase2_neutral_dead hu]; simp),
        if_neg (by simp [hnil])]

/-- Witness for the amended C1 theorem at concrete inputs: "so sad" takes
the Negative keyword branch and "blah" takes the capitalization fallback. -/
theorem C1_amended_normalizer_witness :
    (containsAny (pyLower (pyStrip ("so sad".toList))) positiveWords = false ∧
     containsAny (pyLower (pyStrip ("so sad".toList))) negativeWords = true ∧
     clean_response ("so sad".toList) = "Negative".toList) ∧
    (pyLower (pyStrip ("blah".toList)) ≠ [] ∧
     clean_response ("blah".toList) = pyCapitalize (pyLower (pyStrip ("blah".toList)))) := by
  refine ⟨⟨by decide, by decide, ?_⟩, ⟨by decide, ?_⟩⟩
  · exact (C1_amended_normalizer ("so sad".toList)).2.1 (by decide) (by decide)
  · exact (C1_amended_normalizer ("blah".toList)).2.2.2.1
      (by decide) (by decide) (by decide) (by decide)

/-- C2, counterexample: the claim maps "Pos" to "Positive" via substring
match, but the substring test runs the other way round (Python's
`'positive' in text`): "pos" does not contain "positive", so the code falls
through to the capitalization fallback and answers "Pos". -/
theorem C2_counterexample :
    clean_response ("Pos".toList) = "Pos".toList ∧
    clean_response ("Pos".toList) ≠ "Positive".toList := by
  constructor
  · decide
  · decide

/-- C2, amended: the label-normalization function maps "I feel very happy
today" to "Positive", "This is absolutely terrible" to "Negative", "It was
rather average" to "Neutral", "banana" to "Banana", and "Pos" to "Pos" (no
keyword and no literal label substring occurs in "pos", so the capitalized
fallback applies). -/
theorem C2_amended_examples :
    clean_response ("I feel very happy today".toList) = "Positive".toList ∧
    clean_response ("This is absolutely terrible".toList) = "Negative".toList ∧
    clean_response ("It was rather average".toList) = "Neutral".toList ∧
    clean_response ("Pos".toList) = "Pos".toList ∧
    clean_response ("banana".toList) = "Banana".toList := by
  refine ⟨?_, ?_, ?_, ?_, ?_⟩ <;> decide

/-- C9: a raw reply that is empty or all whitespace normalizes to "Neutral"
(not to a capitalized empty string), and inside `/analyze/` that branch is
unreachable: when the stripped upstream reply is empty the endpoint answers
a 500 error before ever calling the normalizer. -/
theorem C9_empty_reply_neutral_and_unreachable :
    (∀ s : PyStr, s.all pyIsSpace = true →
        clean_response s = "Neutral".toList) ∧
    (∀ (text : PyStr) (model : Option PyStr) (env : Env) (resp : PyStr),
        3 ≤ (pyStrip text).length → (pyStrip text).length ≤ 5000 →
        env.ollamaUp = true → env.outcome = .ok 200 resp →
        pyStrip resp = [] →
        analyze_sentiment text model env
          = .error (wrapAsUnexpected ⟨500, "Empty response from model".toList⟩)) := by
  constructor
  · intro s hs
    exact clean_response_of_strip_nil (pyStrip_of_all_space hs)
  · intro text model env resp h3 h5 hup houtcome hresp
    rw [analyze_valid h3 h5 hup, houtcome]
    rw [callOllama, if_neg (by simp), if_pos hresp]

/-- Witness for C9 at concrete inputs: the all-whitespace reply " " and a
request whose upstream reply strips to the empty string. -/
theorem C9_empty_reply_witness :
    (" ".toList.all pyIsSpace = true ∧
     clean_response (" ".toList) = "Neutral".toList) ∧
    (analyze_sentiment ("good day".toList) none ⟨true, [], .ok 200 "  ".toList⟩
       = .error (wrapAsUnexpected ⟨500, "Empty response from model".toList⟩)) := by
  refine ⟨⟨by decide, ?_⟩, ?_⟩
  · exact C9_empty_reply_neutral_and_unreachable.1 (" ".toList) (by decide)
  · exact C9_empty_reply_neutral_and_unreachable.2 ("good day".toList) none
      ⟨true, [], .ok 200 "  ".toList⟩ ("  ".toList)
      (by decide) (by decide) rfl rfl (by decide)

/-- C3, counterexample: with the two-character (invalid) input "hi" and the
backend unreachable, `/analyze/` answers 400, not the claimed 503:
validation runs before the liveness check. -/
theorem C3_counterexample :
    errStatus (analyze_sentiment ("hi".toList) none ⟨false, [], .timeout⟩)
      = some 400 ∧
    errStatus (analyze_sentiment ("hi".toList) none ⟨false, [], .timeout⟩)
      ≠ some 503 := by
  constructor
  · decide
  · decide

/-- C3, amended: when the stripped input is valid (3 to 5000 characters)
and the backend is unreachable, `/analyze/` answers the 503
service-unavailable error; when the stripped input is invalid, `/analyze/`
answers 400 regardless of backend reachability. -/
theorem C3_amended_unreachable_503 (text : PyStr) (model : Option PyStr)
    (env : Env) :
    (env.ollamaUp = false →
     3 ≤ (pyStrip text).length → (pyStrip text).length ≤ 5000 →
     analyze_sentiment text model env
       = .error ⟨503, "Ollama service is not available. Please ensure Ollama is running.".toList⟩) ∧
    ((pyStrip text).length < 3 ∨ (pyStrip text).length > 5000 →
     errStatus (analyze_sentiment text model env) = some 400) := by
  constructor
  · intro hup h3 h5
    exact analyze_down hup h3 h5
  · rintro (h | h)
    · exact analyze_short h
    · exact analyze_long h

/-- Witness for the amended C3 theorem: a valid input against an
unreachable backend yields the 503 error, and the invalid input "hi"
yields a 400 even with the backend unreachable. -/
theorem C3_amended_unreachable_503_witness :
    (analyze_sentiment ("good day".toList) none ⟨false, [], .timeout⟩
       = .error ⟨503, "Ollama service is not available. Please ensure Ollama is running.".toList⟩) ∧
    (errStatus (analyze_sentiment ("x".toList) none ⟨false, [], .timeout⟩)
       = some 400) := by
  constructor
  · exact (C3_amended_unreachable_503 ("good day".toList) none
      ⟨false, [], .timeout⟩).1 rfl (by decide) (by decide)
  · exact (C3_amended_unreachable_503 ("x".toList) none
      ⟨false, [], .timeout⟩).2 (Or.inl (by decide))

/-- A 5001-character input whose last character is a space: its stripped
form has exactly 5000 characters, so it passes validation. -/
def longBoundaryText : PyStr := List.replicate 5000 'x' ++ [' ']

/-- Stripping `longBoundaryText` drops only the trailing space. -/
lemma pyStrip_longBoundaryText :
    pyStrip longBoundaryText = List.replicate 5000 'x' := by
  have hx : pyIsSpace 'x' = false := by decide
  have hsp : pyIsSpace ' ' = true := by decide
  have h1 : List.dropWhile pyIsSpace (List.replicate 5000 'x' ++ [' '])
      = List.replicate 5000 'x' ++ [' '] := by
    rw [show (5000 : Nat) = 4999 + 1 from rfl, List.replicate_succ,
        List.cons_append, List.dropWhile_cons, hx]
    exact if_neg (by simp)
  have h2 : (List.replicate 5000 'x' ++ [' ']).reverse
      = ' ' :: List.replicate 5000 'x' := by
    rw [List.reverse_append, List.reverse_replicate]
    rfl
  have h3 : List.dropWhile pyIsSpace (' ' :: List.replicate 5000 'x')
      = List.replicate 5000 'x' := by
    rw [List.dropWhile_cons, hsp, if_pos rfl,
        show (5000 : Nat) = 4999 + 1 from rfl, List.replicate_succ,
        List.dropWhile_cons, hx]
    exact if_neg (by simp)
  unfold longBoundaryText pyStrip
  rw [h1, h2, h3, List.reverse_replicate]

/-- C4, counterexample: `longBoundaryText` has 5001 characters, yet
`/analyze/` does not answer 400 on it (with the backend up and a healthy
upstream reply the call succeeds): the 5000-character bound is checked
against the stripped text, which here has 5000 characters. -/
theorem C4_counterexample :
    longBoundaryText.length = 5001 ∧
    errStatus (analyze_sentiment longBoundaryText none
        ⟨true, [], .ok 200 "Positive".toList⟩) ≠ some 400 := by
  have hlen : (pyStrip longBoundaryText).length = 5000 := by
    rw [pyStrip_longBoundaryText, List.length_replicate]
  constructor
  · unfold longBoundaryText
    simp only [List.length_append, List.length_replicate, List.length_cons,
      List.length_nil]
  · exact analyze_not400 (by omega) (by omega)

/-- C4, amended: a raw input of length 0 to 2 always yields a 400 (its
stripped form is no longer); a STRIPPED input of fewer than 3 or more than
5000 characters always yields a 400; but a raw length of 5001 or more does
not by itself force a 400, since the bounds are checked on the stripped
text. -/
theorem C4_amended_length_bounds (text : PyStr) (model : Option PyStr)
    (env : Env) :
    (text.length ≤ 2 →
       errStatus (analyze_sentiment text model env) = some 400) ∧
    ((pyStrip text).length < 3 →
       errStatus (analyze_sentiment text model env) = some 400) ∧
    ((pyStrip text).length > 5000 →
       errStatus (analyze_sentiment text model env) = some 400) := by
  refine ⟨?_, ?_, ?_⟩
  · intro h
    have := pyStrip_length_le text
    exact analyze_short (by omega)
  · exact fun h => analyze_short h
  · exact fun h => analyze_long h

/-- Witness for the amended C4 theorem: the empty input, the one-character
input "x" (raw and stripped length 1), and a 5001-character all-'x' input
whose stripped length is also 5001. -/
theorem C4_amended_length_bounds_witness :
    (("x".toList.length ≤ 2) ∧
     errStatus (analyze_sentiment ("x".toList) none ⟨true, [], .timeout⟩)
       = some 400) ∧
    ((pyStrip ("hi".toList)).length < 3 ∧
     errStatus (analyze_sentiment ("hi".toList) none ⟨true, [], .timeout⟩)
       = some 400) ∧
    ((pyStrip (List.replicate 5001 'x')).length > 5000 ∧
     errStatus (analyze_sentiment (List.replicate 5001 'x') none
         ⟨true, [], .timeout⟩) = some 400) := by
  have hstrip : pyStrip (List.replicate 5001 'x') = List.replicate 5001 'x' := by
    have hx : pyIsSpace 'x' = false := by decide
    have h1 : List.dropWhile pyIsSpace (List.replicate 5001 'x')
        = List.replicate 5001 'x' := by
      rw [show (5001 : Nat) = 5000 + 1 from rfl, List.replicate_succ,
          List.dropWhile_cons, hx]
      exact if_neg (by simp)
    unfold pyStrip
    rw [h1, List.reverse_replicate, h1, List.reverse_replicate]
  refine ⟨⟨by decide, ?_⟩, ⟨by decide, ?_⟩, ⟨?_, ?_⟩⟩
  · exact (C4_amended_length_bounds ("x".toList) none ⟨true, [], .timeout⟩).1
      (by decide)
  · exact (C4_amended_length_bounds ("hi".toList) none ⟨true, [], .timeout⟩).2.1
      (by decide)
  · rw [hstrip, List.length_replicate]; omega
  · exact (C4_amended_length_bounds (List.replicate 5001 'x') none
      ⟨true, [], .timeout⟩).2.2 (by rw [hstrip, List.length_replicate]; omega)

/-- Model substitution (main.py lines 124-125): a nonempty model list that
lacks the requested model makes the code take its first entry. -/
lemma chooseModel_some_subst {m : PyStr} {models : List PyStr}
    (hm : m ≠ []) (hmodels : models ≠ []) (hc : models.contains m = false) :
    chooseModel (some m) models = models.headD m := by
  have hreq : requestedModel (some m) = m := by simp [requestedModel, hm]
  unfold chooseModel
  rw [hreq, if_pos ⟨hmodels, hc⟩]

/-- With no model supplied, the default survives substitution only when the
model list is empty or already holds it. -/
lemma chooseModel_none_default {models : List PyStr}
    (h : models = [] ∨ models.contains DEFAULT_MODEL = true) :
    chooseModel none models = DEFAULT_MODEL := by
  have hreq : requestedModel none = DEFAULT_MODEL := rfl
  unfold chooseModel
  rw [hreq]
  rcases h with h | h
  · rw [if_neg]
    rintro ⟨h1, -⟩
    exact h1 h
  · rw [if_neg]
    rintro ⟨-, h2⟩
    rw [h] at h2
    simp at h2

/-- With no model supplied, a nonempty model list that lacks the default
makes the code replace the default by the first listed model. -/
lemma chooseModel_none_subst {models : List PyStr}
    (hmodels : models ≠ []) (hc : models.contains DEFAULT_MODEL = false) :
    chooseModel none models = models.headD DEFAULT_MODEL := by
  have hreq : requestedModel none = DEFAULT_MODEL := rfl
  unfold chooseModel
  rw [hreq, if_pos ⟨hmodels, hc⟩]

/-- C5, counterexample: with NO model supplied and the backend listing only
"llama2:7b", the result's model field is "llama2:7b", not the claimed fixed
default "mistral:7b-instruct": the default is itself subject to
substitution by the first listed model. -/
theorem C5_counterexample :
    okModelUsed (analyze_sentiment ("good day".toList) none
        ⟨true, ["llama2:7b".toList], .ok 200 "Positive".toList⟩)
      = some ("llama2:7b".toList) ∧
    some ("llama2:7b".toList) ≠ some DEFAULT_MODEL := by
  constructor
  · decide
  · decide

/-- C5, amended: a supplied model absent from a nonempty model list is
replaced by the first listed model, which is reported in `model_used`; with
no model supplied the fixed default "mistral:7b-instruct" is used only when
the model list is empty or itself lists the default — otherwise the default
too is replaced by the first listed model. -/
theorem C5_amended_model_selection (text : PyStr) (env : Env) :
    (∀ (m : PyStr) (r : AnalyzeResult),
        analyze_sentiment text (some m) env = .ok r →
        m ≠ [] → env.models ≠ [] → env.models.contains m = false →
        r.model_used = env.models.headD m) ∧
    (∀ r : AnalyzeResult,
        analyze_sentiment text none env = .ok r →
        (env.models = [] ∨ env.models.contains DEFAULT_MODEL = true) →
        r.model_used = DEFAULT_MODEL) ∧
    (∀ r : AnalyzeResult,
        analyze_sentiment text none env = .ok r →
        env.models ≠ [] → env.models.contains DEFAULT_MODEL = false →
        r.model_used = env.models.headD DEFAULT_MODEL) := by
  refine ⟨?_, ?_, ?_⟩
  · intro m r h hm hmodels hc
    obtain ⟨raw, -, hr⟩ := analyze_ok_shape h
    subst hr
    show chooseModel (some m) env.models = env.models.headD m
    exact chooseModel_some_subst hm hmodels hc
  · intro r h hdef
    obtain ⟨raw, -, hr⟩ := analyze_ok_shape h
    subst hr
    show chooseModel none env.models = DEFAULT_MODEL
    exact chooseModel_none_default hdef
  · intro r h hmodels hc
    obtain ⟨raw, -, hr⟩ := analyze_ok_shape h
    subst hr
    show chooseModel none env.models = env.models.headD DEFAULT_MODEL
    exact chooseModel_none_subst hmodels hc

/-- Witness for the amended C5 theorem: the absent model "foo" is replaced
by the first listed model "llama2:7b"; with no model supplied and an empty
model list the default is kept; with no model supplied and the list
["llama2:7b"], which lacks the default, the first listed model is
reported. -/
theorem C5_amended_model_selection_witness :
    (analyze_sentiment ("good day".toList) (some ("foo".toList))
        ⟨true, ["llama2:7b".toList], .ok 200 "Positive".toList⟩
      = .ok ⟨"Positive".toList, "high".toList, "llama2:7b".toList,
             "good day".toList, 8, "Positive".toList, "success".toList⟩ ∧
     (⟨"Positive".toList, "high".toList, "llama2:7b".toList,
       "good day".toList, 8, "Positive".toList, "success".toList⟩
         : AnalyzeResult).model_used
       = ["llama2:7b".toList].headD ("foo".toList)) ∧
    (analyze_sentiment ("good day".toList) none
        ⟨true, [], .ok 200 "Positive".toList⟩
      = .ok ⟨"Positive".toList, "high".toList, DEFAULT_MODEL,
             "good day".toList, 8, "Positive".toList, "success".toList⟩ ∧
     (⟨"Positive".toList, "high".toList, DEFAULT_MODEL,
       "good day".toList, 8, "Positive".toList, "success".toList⟩
         : AnalyzeResult).model_used = DEFAULT_MODEL) ∧
    (analyze_sentiment ("good day".toList) none
        ⟨true, ["llama2:7b".toList], .ok 200 "Positive".toList⟩
      = .ok ⟨"Positive".toList, "high".toList, "llama2:7b".toList,
             "good day".toList, 8, "Positive".toList, "success".toList⟩ ∧
     (⟨"Positive".toList, "high".toList, "llama2:7b".toList,
       "good day".toList, 8, "Positive".toList, "success".toList⟩
         : AnalyzeResult).model_used
       = ["llama2:7b".toList].headD DEFAULT_MODEL) := by
  refine ⟨⟨by decide, ?_⟩, ⟨by decide, ?_⟩, ⟨by decide, ?_⟩⟩
  · exact (C5_amended_model_selection ("good day".toList)
      ⟨true, ["llama2:7b".toList], .ok 200 "Positive".toList⟩).1
      ("foo".toList) _ (by decide) (by decide) (by decide) (by decide)
  · exact (C5_amended_model_selection ("good day".toList)
      ⟨true, [], .ok 200 "Positive".toList⟩).2.1 _ (by decide) (Or.inl rfl)
  · exact (C5_amended_model_selection ("good day".toList)
      ⟨true, ["llama2:7b".toList], .ok 200 "Positive".toList⟩).2.2
      ⟨"Positive".toList, "high".toList, "llama2:7b".toList,
       "good day".toList, 8, "Positive".toList, "success".toList⟩
      (by decide) (by decide) (by decide)

/-- C6: for a well-formed request (valid stripped length, backend
probe up), the error answer is determined by the upstream outcome: timeout
gives 504, connection failure gives 503, a non-200 status gives 500, an
empty stripped reply gives 500, and any other exception gives 500 with the
exception message embedded in the detail. -/
theorem C6_failure_mapping (text : PyStr) (model : Option PyStr) (env : Env)
    (h3 : 3 ≤ (pyStrip text).length) (h5 : (pyStrip text).length ≤ 5000)
    (hup : env.ollamaUp = true) :
    (env.outcome = .timeout →
       errStatus (analyze_sentiment text model env) = some 504) ∧
    (∀ msg, env.outcome = .connError msg →
       errStatus (analyze_sentiment text model env) = some 503) ∧
    (∀ st resp, env.outcome = .ok st resp → st ≠ 200 →
       errStatus (analyze_sentiment text model env) = some 500) ∧
    (∀ resp, env.outcome = .ok 200 resp → pyStrip resp = [] →
       errStatus (analyze_sentiment text model env) = some 500) ∧
    (∀ msg, env.outcome = .otherExc msg →
       analyze_sentiment text model env
         = .error ⟨500, "Unexpected error during sentiment analysis: ".toList ++ msg⟩ ∧
       pyContains msg
         ("Unexpected error during sentiment analysis: ".toList ++ msg) = true) := by
  refine ⟨?_, ?_, ?_, ?_, ?_⟩
  · intro houtcome
    rw [analyze_valid h3 h5 hup, houtcome]
    rfl
  · intro msg houtcome
    rw [analyze_valid h3 h5 hup, houtcome]
    rfl
  · intro st resp houtcome hst
    rw [analyze_valid h3 h5 hup, houtcome, callOllama, if_pos hst]
    rfl
  · intro resp houtcome hresp
    rw [analyze_valid h3 h5 hup, houtcome, callOllama, if_neg (by simp),
        if_pos hresp]
    rfl
  · intro msg houtcome
    rw [analyze_valid h3 h5 hup, houtcome]
    exact ⟨rfl, pyContains_suffix msg _⟩

/-- Witness for C6 at a concrete request: an upstream timeout yields 504
and an unexpected exception yields a 500 embedding the message. -/
theorem C6_failure_mapping_witness :
    (errStatus (analyze_sentiment ("good day".toList) none
        ⟨true, [], .timeout⟩) = some 504) ∧
    (analyze_sentiment ("good day".toList) none
        ⟨true, [], .otherExc ("boom".toList)⟩
      = .error ⟨500, "Unexpected error during sentiment analysis: ".toList
                       ++ "boom".toList⟩ ∧
     pyContains ("boom".toList)
       ("Unexpected error during sentiment analysis: ".toList
          ++ "boom".toList) = true) := by
  constructor
  · exact (C6_failure_mapping ("good day".toList) none ⟨true, [], .timeout⟩
      (by decide) (by decide) rfl).1 rfl
  · exact (C6_failure_mapping ("good day".toList) none
      ⟨true, [], .otherExc ("boom".toList)⟩
      (by decide) (by decide) rfl).2.2.2.2 ("boom".toList) rfl

/-- C7: in every successful answer the confidence is "high" exactly when
the sentiment is one of the three canonical labels, and "medium" exactly
otherwise. -/
theorem C7_confidence_tag (text : PyStr) (model : Option PyStr) (env : Env)
    (r : AnalyzeResult) (h : analyze_sentiment text model env = .ok r) :
    (r.confidence = "high".toList ↔ r.sentiment ∈ canonicalLabels) ∧
    (r.confidence = "medium".toList ↔ r.sentiment ∉ canonicalLabels) := by
  obtain ⟨raw, -, hr⟩ := analyze_ok_shape h
  subst hr
  have hsent : (buildResult (pyStrip text)
      (chooseModel model env.models) raw).sentiment = clean_response raw := rfl
  by_cases hc : canonicalLabels.contains (clean_response raw) = true
  · have hmem : clean_response raw ∈ canonicalLabels := by simpa using hc
    have hconf : (buildResult (pyStrip text)
        (chooseModel model env.models) raw).confidence = "high".toList := by
      unfold buildResult
      rw [if_pos hc]
    constructor
    · rw [hconf, hsent]
      exact iff_of_true rfl hmem
    · rw [hconf, hsent]
      exact iff_of_false (by decide) (by simp [hmem])
  · have hc' : canonicalLabels.contains (clean_response raw) = false :=
      Bool.not_eq_true _ ▸ hc
    have hmem : clean_response raw ∉ canonicalLabels := by simpa using hc
    have hconf : (buildResult (pyStrip text)
        (chooseModel model env.models) raw).confidence = "medium".toList := by
      unfold buildResult
      rw [if_neg (by rw [hc']; simp)]
    constructor
    · rw [hconf, hsent]
      exact iff_of_false (by decide) (by simpa using hmem)
    · rw [hconf, hsent]
      exact iff_of_true rfl hmem

/-- Witness for C7 at two concrete requests: a canonical reply ("Positive",
confidence "high") and a non-canonical reply ("banana", confidence
"medium"). -/
theorem C7_confidence_tag_witness :
    (analyze_sentiment ("good day".toList) none
        ⟨true, [], .ok 200 "Positive".toList⟩
      = .ok ⟨"Positive".toList, "high".toList, DEFAULT_MODEL,
             "good day".toList, 8, "Positive".toList, "success".toList⟩ ∧
     (("high".toList : PyStr) = "high".toList ↔
        ("Positive".toList : PyStr) ∈ canonicalLabels)) ∧
    (analyze_sentiment ("good day".toList) none
        ⟨true, [], .ok 200 "banana".toList⟩
      = .ok ⟨"Banana".toList, "medium".toList, DEFAULT_MODEL,
             "good day".toList, 8, "banana".toList, "success".toList⟩ ∧
     (("medium".toList : PyStr) = "medium".toList ↔
        ("Banana".toList : PyStr) ∉ canonicalLabels)) := by
  refine ⟨⟨by decide, ?_⟩, ⟨by decide, ?_⟩⟩
  · exact (C7_confidence_tag ("good day".toList) none
      ⟨true, [], .ok 200 "Positive".toList⟩
      ⟨"Positive".toList, "high".toList, DEFAULT_MODEL,
       "good day".toList, 8, "Positive".toList, "success".toList⟩
      (by decide)).1
  · exact (C7_confidence_tag ("good day".toList) none
      ⟨true, [], .ok 200 "banana".toList⟩
      ⟨"Banana".toList, "medium".toList, DEFAULT_MODEL,
       "good day".toList, 8, "banana".toList, "success".toList⟩
      (by decide)).2

/-- C10: every successful answer echoes the whitespace-stripped input in
`input_text` and its length in `input_length`, and the endpoint answers 400
exactly when the stripped length is under 3 or over 5000: the bounds are
checked against the stripped text. -/
theorem C10_stripped_echo_and_bounds (text : PyStr) (model : Option PyStr)
    (env : Env) :
    (∀ r : AnalyzeResult, analyze_sentiment text model env = .ok r →
        r.input_text = pyStrip text ∧
        r.input_length = (pyStrip text).length) ∧
    (errStatus (analyze_sentiment text model env) = some 400 ↔
        (pyStrip text).length < 3 ∨ (pyStrip text).length > 5000) := by
  constructor
  · intro r h
    obtain ⟨raw, -, hr⟩ := analyze_ok_shape h
    subst hr
    exact ⟨rfl, rfl⟩
  · constructor
    · intro h
      by_contra hcon
      push_neg at hcon
      exact analyze_not400 (by omega) (by omega) h
    · rintro (h | h)
      · exact analyze_short h
      · exact analyze_long h

/-- Witness for C10: a successful call on "  good day  " echoes the
stripped text "good day" of length 8, and the two-character input "hi"
answers 400 in accordance with the bound characterization. -/
theorem C10_stripped_echo_and_bounds_witness :
    (analyze_sentiment ("  good day  ".toList) none
        ⟨true, [], .ok 200 "Positive".toList⟩
      = .ok ⟨"Positive".toList, "high".toList, DEFAULT_MODEL,
             "good day".toList, 8, "Positive".toList, "success".toList⟩ ∧
     ("good day".toList : PyStr) = pyStrip ("  good day  ".toList) ∧
     (8 : Nat) = (pyStrip ("  good day  ".toList)).length) ∧
    (errStatus (analyze_sentiment ("hi".toList) none
        ⟨true, [], .ok 200 "Positive".toList⟩) = some 400 ↔
     (pyStrip ("hi".toList)).length < 3 ∨
       (pyStrip ("hi".toList)).length > 5000) := by
  refine ⟨⟨by decide, ?_⟩, ?_⟩
  · exact (C10_stripped_echo_and_bounds ("  good day  ".toList) none
      ⟨true, [], .ok 200 "Positive".toList⟩).1
      ⟨"Positive".toList, "high".toList, DEFAULT_MODEL,
       "good day".toList, 8, "Positive".toList, "success".toList⟩
      (by decide)
  · exact (C10_stripped_echo_and_bounds ("hi".toList) none
      ⟨true, [], .ok 200 "Positive".toList⟩).2
